import Mathlib

/-!
Verification of the newsrank-ai python-sdk transport layer.

This file shallowly embeds the transport core of `src/newsrank/_client.py`
(`_build_error`, `_clean_params`, `SyncClient`, `AsyncClient`), the error
taxonomy of `src/newsrank/_exceptions.py`, and the resource facade call
sites (articles, stories, search, entities, sources, graph, meta), and
proves the specified properties about them.

Modelling conventions:
- Dynamic Python/JSON values are represented by the inductive `Json`.
- A parameter value of Python type `Optional[...]` is an `Option Json`,
  with `none` standing for Python `None`.
- An HTTP response is modelled by its status code, the outcome of
  `response.json()` (`some` parsed value, or `none` when JSON decoding
  raises), and its raw text (`response.content` is empty exactly when
  `response.text` is empty in this model).
- The network is an oracle `SentRequest -> Response`; `request` returns
  the request it sent together with the outcome (returned value, raised
  classified error, or a JSON-decode failure on a successful response).
-/

/-- Dynamic JSON value, the universe of Python values the SDK passes through. -/
inductive Json where
  | null : Json
  | bool (b : Bool) : Json
  | num (n : Int) : Json
  | str (s : String) : Json
  | arr (elems : List Json) : Json
  | obj (fields : List (String × Json)) : Json

/-- Python `dict.get` on a parsed JSON object: the value at the first
occurrence of the key, if any. -/
def lookupKey (fields : List (String × Json)) (key : String) : Option Json :=
  (fields.find? (fun kv => kv.1 == key)).map Prod.snd

/-- Error classes of `src/newsrank/_exceptions.py`. -/
inductive ErrorClass where
  | NewsRankError
  | AuthenticationError
  | PermissionError
  | NotFoundError
  | RateLimitError
  | ServerError
deriving DecidableEq

/-- Direct superclass of each error class, as declared in
`src/newsrank/_exceptions.py` (every concrete kind inherits directly from
`NewsRankError`; the base class itself inherits only `Exception`, which is
outside the model). -/
def superclassOf : ErrorClass → Option ErrorClass
  | ErrorClass.NewsRankError => none
  | _ => some ErrorClass.NewsRankError

/-- Python `isinstance` restricted to the SDK error hierarchy: a class is an
instance of a target class when it is the target or inherits from it. -/
def isInstanceOf (c target : ErrorClass) : Bool :=
  c == target || superclassOf c == some target

/-- A raised `NewsRankError` value: class, `message`, `status_code`, `body`
(`src/newsrank/_exceptions.py`, lines 8-32). The dynamically typed `message`
and `body` attributes are `Json` values. -/
structure NewsRankErrorValue where
  cls : ErrorClass
  message : Json
  status_code : Option Nat
  body : Option Json

/-- An HTTP response as the transport observes it. `jsonBody` is the result
of `response.json()`: `some` parsed value, or `none` when decoding raises.
`text` is `response.text`; the body is empty exactly when `text` is empty. -/
structure Response where
  status : Nat
  jsonBody : Option Json
  text : String

/-- httpx `response.is_success`: status in the 200-299 range. -/
def isSuccess (s : Nat) : Prop := 200 ≤ s ∧ s < 300

instance (s : Nat) : Decidable (isSuccess s) :=
  inferInstanceAs (Decidable (200 ≤ s ∧ s < 300))

/-- The `_STATUS_MAP` dict of `_client.py` lines 27-32. -/
def statusMap (s : Nat) : Option ErrorClass :=
  if s = 401 then some ErrorClass.AuthenticationError
  else if s = 403 then some ErrorClass.PermissionError
  else if s = 404 then some ErrorClass.NotFoundError
  else if s = 429 then some ErrorClass.RateLimitError
  else none

/-- The fallback error message of `_build_error` (`_client.py` line 41). -/
def fallbackMessage (status : Nat) : String :=
  "API request failed with status " ++ toString status

/-- Message extraction of `_build_error` (`_client.py` lines 40-47): when
the body parsed as a JSON object, prefer its `error` field, else its
`message` field, else the fallback; any other body keeps the fallback. -/
def extractMessage (status : Nat) (jsonBody : Option Json) : Json :=
  match jsonBody with
  | some (Json.obj fields) =>
    match lookupKey fields "error" with
    | some v => v
    | none =>
      match lookupKey fields "message" with
      | some v => v
      | none => Json.str (fallbackMessage status)
  | _ => Json.str (fallbackMessage status)

/-- Body stored on the error (`_client.py` lines 42-47): the parsed JSON
when decoding succeeded, otherwise the raw response text. -/
def storedBody (r : Response) : Json :=
  match r.jsonBody with
  | some j => j
  | none => Json.str r.text

/-- The `_build_error` function of `_client.py` lines 35-54. -/
def buildError (r : Response) : NewsRankErrorValue :=
  let status := r.status
  let message := extractMessage status r.jsonBody
  let body := some (storedBody r)
  match statusMap status with
  | some cls => ⟨cls, message, some status, body⟩
  | none =>
    if 500 ≤ status ∧ status < 600 then
      ⟨ErrorClass.ServerError, message, some status, body⟩
    else
      ⟨ErrorClass.NewsRankError, message, some status, body⟩

/-- The `_clean_params` function of `_client.py` lines 57-59: drop every
entry whose value is `None`. -/
def cleanParams (params : List (String × Option Json)) :
    List (String × Option Json) :=
  params.filter (fun kv => kv.2.isSome)

/-- Transport client state after `__init__`: api key, resolved base URL,
and whether the client owns the underlying httpx connection pool
(`_client.py` lines 86-88 and 180-182). -/
structure ClientState where
  api_key : String
  base_url : String
  owns_client : Bool

/-- Python `s.rstrip("/")`: remove all trailing slash characters. -/
def rstripSlashes (s : String) : String :=
  String.mk (List.dropWhile (fun c => c == '/') s.data.reverse).reverse

/-- Python truthiness of `base_url or DEFAULT_BASE_URL`: the override when
it is a non-empty string, the default otherwise. -/
def pyOrDefault (override : Option String) (default : String) : String :=
  match override with
  | none => default
  | some s => if s = "" then default else s

/-- The `DEFAULT_BASE_URL` constant of `_client.py` line 23. -/
def DEFAULT_BASE_URL : String := "https://newsrank.ai/api/v1"

/-- `SyncClient.__init__` (`_client.py` lines 78-95): resolve the base URL
with trailing slashes stripped, record pool ownership (`_owns_client` is
true exactly when no `httpx_client` was supplied). -/
def syncInit (api_key : String) (base_url : Option String)
    (httpx_client_supplied : Bool) : ClientState :=
  ⟨api_key, rstripSlashes (pyOrDefault base_url DEFAULT_BASE_URL),
    !httpx_client_supplied⟩

/-- `AsyncClient.__init__` (`_client.py` lines 172-189), transcribed
separately from its own code. -/
def asyncInit (api_key : String) (base_url : Option String)
    (httpx_client_supplied : Bool) : ClientState :=
  ⟨api_key, rstripSlashes (pyOrDefault base_url DEFAULT_BASE_URL),
    !httpx_client_supplied⟩

/-- The request handed to httpx: method, full URL, cleaned query-parameter
mapping, and the per-call headers dict (which holds only the Authorization
entry; the fixed User-Agent and Accept headers live on the pool). -/
structure SentRequest where
  method : String
  url : String
  params : List (String × Option Json)
  headers : List (String × String)

/-- Outcome of one `request` call: the returned Python value (`none` is the
no-content `None` of the 204/empty-body branch), a raised classified error,
or the JSON-decode exception raised on a successful non-JSON body. -/
inductive RequestOutcome where
  | ok (v : Option Json)
  | error (e : NewsRankErrorValue)
  | decodeFailure

/-- `SyncClient.request` (`_client.py` lines 99-130): build the URL and
headers, clean the params, perform one HTTP call through the `net` oracle,
raise a classified error on a non-2xx status, return `None` on 204 or an
empty body, else the parsed JSON. Returns the sent request paired with the
outcome. -/
def syncRequest (c : ClientState) (method path : String)
    (params : Option (List (String × Option Json))) (auth : Bool)
    (net : SentRequest → Response) : SentRequest × RequestOutcome :=
  let url := c.base_url ++ path
  let headers : List (String × String) :=
    if auth then [("Authorization", "Bearer " ++ c.api_key)] else []
  let req : SentRequest := ⟨method, url, cleanParams (params.getD []), headers⟩
  let response := net req
  let outcome :=
    if ¬ isSuccess response.status then
      RequestOutcome.error (buildError response)
    else if response.status = 204 ∨ response.text = "" then
      RequestOutcome.ok none
    else
      match response.jsonBody with
      | some j => RequestOutcome.ok (some j)
      | none => RequestOutcome.decodeFailure
  (req, outcome)

/-- `AsyncClient.request` (`_client.py` lines 193-220), transcribed
separately from its own code; the `await` suspension point has no
counterpart in the value-level model. -/
def asyncRequest (c : ClientState) (method path : String)
    (params : Option (List (String × Option Json))) (auth : Bool)
    (net : SentRequest → Response) : SentRequest × RequestOutcome :=
  let url := c.base_url ++ path
  let headers : List (String × String) :=
    if auth then [("Authorization", "Bearer " ++ c.api_key)] else []
  let req : SentRequest := ⟨method, url, cleanParams (params.getD []), headers⟩
  let response := net req
  let outcome :=
    if ¬ isSuccess response.status then
      RequestOutcome.error (buildError response)
    else if response.status = 204 ∨ response.text = "" then
      RequestOutcome.ok none
    else
      match response.jsonBody with
      | some j => RequestOutcome.ok (some j)
      | none => RequestOutcome.decodeFailure
  (req, outcome)

/-- `SyncClient.close` (`_client.py` lines 144-147), observed through a
counter of `pool.close()` calls: the pool is closed only when owned. -/
def syncClose (c : ClientState) (poolCloses : Nat) : Nat :=
  if c.owns_client then poolCloses + 1 else poolCloses

/-- `SyncClient.__exit__` (`_client.py` lines 152-153): delegates to
`close`. -/
def syncExit (c : ClientState) (poolCloses : Nat) : Nat :=
  syncClose c poolCloses

/-- `AsyncClient.close` (`_client.py` lines 234-237): the pool is
`aclose`d only when owned. -/
def asyncClose (c : ClientState) (poolCloses : Nat) : Nat :=
  if c.owns_client then poolCloses + 1 else poolCloses

/-- Lifecycle operations a caller can perform on a client after
construction; `request` never touches the pool's open/closed state. -/
inductive ClientOp where
  | request
  | close
  | exitScope

/-- Run a sequence of lifecycle operations, counting pool closes. -/
def runOps (c : ClientState) (poolCloses : Nat) : List ClientOp → Nat
  | [] => poolCloses
  | op :: rest =>
    runOps c
      (match op with
       | ClientOp.request => poolCloses
       | ClientOp.close => syncClose c poolCloses
       | ClientOp.exitScope => syncExit c poolCloses)
      rest

/-- One facade call site: the endpoint path and the `auth` flag passed to
the transport (`auth` defaults to true at every site that does not pass
it). -/
structure FacadeCall where
  name : String
  path : String
  auth : Bool
deriving DecidableEq

/-- All facade call sites of the seven resource classes, with the path
each hands to `client.get` (path-parameterized endpoints interpolate the
caller-supplied `id`) and the `auth` flag in force there. The async
resource classes issue the identical calls. -/
def facadeCalls (id : String) : List FacadeCall :=
  [ ⟨"articles.list", "/items", true⟩,
    ⟨"articles.get", "/item", true⟩,
    ⟨"articles.content", "/content", true⟩,
    ⟨"stories.list", "/stories", true⟩,
    ⟨"stories.ranked", "/stories/ranked", true⟩,
    ⟨"stories.get", "/stories/" ++ id, true⟩,
    ⟨"stories.developments", "/stories/" ++ id ++ "/developments", true⟩,
    ⟨"stories.updates", "/stories/" ++ id ++ "/updates", true⟩,
    ⟨"search.articles", "/search", true⟩,
    ⟨"search.full", "/search/full", true⟩,
    ⟨"search.suggest", "/search/suggest", true⟩,
    ⟨"entities.list", "/entities", true⟩,
    ⟨"entities.trending", "/entities/trending", true⟩,
    ⟨"entities.politicians", "/entities/politicians", true⟩,
    ⟨"entities.get", "/entities/" ++ id, true⟩,
    ⟨"entities.articles", "/entities/" ++ id ++ "/articles", true⟩,
    ⟨"sources.list", "/sources", true⟩,
    ⟨"sources.categories", "/categories", true⟩,
    ⟨"sources.tags", "/tags", true⟩,
    ⟨"sources.rankings", "/source-rankings", true⟩,
    ⟨"graph.entity_network", "/graph/entity-network", true⟩,
    ⟨"graph.story_entity", "/graph/story-entity", true⟩,
    ⟨"graph.topic_cluster", "/graph/topic-cluster", true⟩,
    ⟨"meta.related", "/related", true⟩,
    ⟨"meta.stats", "/stats", true⟩,
    ⟨"meta.version", "/version", false⟩,
    ⟨"meta.usage", "/usage", true⟩ ]

/-- Error class selected by `_build_error` (`_client.py` lines 49-54):
the `_STATUS_MAP` entry when one exists, else Server for 5xx, else the
base class. -/
def classifyStatus (status : Nat) : ErrorClass :=
  match statusMap status with
  | some cls => cls
  | none =>
    if 500 ≤ status ∧ status < 600 then ErrorClass.ServerError
    else ErrorClass.NewsRankError

/-- `ArticlesResource.get` (`articles.py` lines 68-81): the path and the
params mapping it builds from its two optional arguments. -/
def articlesResourceGet (url_hash slug : Option String) :
    String × List (String × Option Json) :=
  ("/item",
    [("url_hash", Option.map Json.str url_hash),
     ("slug", Option.map Json.str slug)])

/-- The full delegated call of `ArticlesResource.get`: hand the built path
and params to `client.get`, i.e. `request("GET", path, params, auth=True)`. -/
def articlesGetRequest (c : ClientState) (url_hash slug : Option String)
    (net : SentRequest → Response) : SentRequest × RequestOutcome :=
  syncRequest c "GET" (articlesResourceGet url_hash slug).1
    (some (articlesResourceGet url_hash slug).2) true net

/-- A sample client used to instantiate universally quantified theorems. -/
def wClient : ClientState := syncInit "nrf_test_key" none false

/-- A sample network oracle returning a fixed successful response. -/
def wNet : SentRequest → Response := fun _ => ⟨200, some Json.null, "null"⟩

/-- A 429 response whose JSON body is an object with an `error` field. -/
def respRateLimited : Response :=
  ⟨429, some (Json.obj [("error", Json.str "rate limited")]), "rate limited"⟩

/-- A 404 response whose body is plain text rather than JSON. -/
def respNotFoundText : Response := ⟨404, none, "not found"⟩

/-- A 200 response carrying the ranked-stories JSON payload. -/
def respRanked : Response :=
  ⟨200,
    some (Json.obj
      [("items", Json.arr [Json.obj [("id", Json.num 1), ("title", Json.str "A")]])]),
    "ranked stories payload"⟩

/-- A 500 response whose JSON body is the literal null. -/
def respServerFail : Response := ⟨500, some Json.null, "null"⟩

/-!
Helper lemmas about the embedded definitions, shared by the claim
theorems below.
-/

/-- The request a `syncRequest` call sends, in record form. -/
lemma syncRequest_fst (c : ClientState) (m p : String)
    (ps : Option (List (String × Option Json))) (a : Bool)
    (net : SentRequest → Response) :
    (syncRequest c m p ps a net).1 =
      ⟨m, c.base_url ++ p, cleanParams (ps.getD []),
        if a then [("Authorization", "Bearer " ++ c.api_key)] else []⟩ := rfl

/-- The outcome of a `syncRequest` call against a constant network oracle,
as a case split on the response. -/
lemma syncRequest_snd (c : ClientState) (m p : String)
    (ps : Option (List (String × Option Json))) (a : Bool) (r : Response) :
    (syncRequest c m p ps a (fun _ => r)).2 =
      if ¬ isSuccess r.status then RequestOutcome.error (buildError r)
      else if r.status = 204 ∨ r.text = "" then RequestOutcome.ok none
      else
        match r.jsonBody with
        | some j => RequestOutcome.ok (some j)
        | none => RequestOutcome.decodeFailure := rfl

/-- `buildError` in record form: class chosen by `classifyStatus`, message
by `extractMessage`, status code copied, body stored. -/
lemma buildError_eq (r : Response) :
    buildError r =
      ⟨classifyStatus r.status, extractMessage r.status r.jsonBody,
        some r.status, some (storedBody r)⟩ := by
  unfold buildError classifyStatus
  rcases h : statusMap r.status with - | cls
  · simp only [h]
    split <;> rfl
  · simp only [h]

lemma classifyStatus_401 : classifyStatus 401 = ErrorClass.AuthenticationError := rfl

lemma classifyStatus_403 : classifyStatus 403 = ErrorClass.PermissionError := rfl

lemma classifyStatus_404 : classifyStatus 404 = ErrorClass.NotFoundError := rfl

lemma classifyStatus_429 : classifyStatus 429 = ErrorClass.RateLimitError := rfl

lemma classifyStatus_server (s : Nat) (h5 : 500 ≤ s) (h6 : s < 600) :
    classifyStatus s = ErrorClass.ServerError := by
  have h1 : ¬ (s = 401) := by omega
  have h2 : ¬ (s = 403) := by omega
  have h3 : ¬ (s = 404) := by omega
  have h4 : ¬ (s = 429) := by omega
  unfold classifyStatus statusMap
  rw [if_neg h1, if_neg h2, if_neg h3, if_neg h4]
  exact if_pos ⟨h5, h6⟩

lemma classifyStatus_generic (s : Nat) (h1 : s ≠ 401) (h2 : s ≠ 403)
    (h3 : s ≠ 404) (h4 : s ≠ 429) (h5 : ¬ (500 ≤ s ∧ s < 600)) :
    classifyStatus s = ErrorClass.NewsRankError := by
  unfold classifyStatus statusMap
  rw [if_neg h1, if_neg h2, if_neg h3, if_neg h4]
  exact if_neg h5

/-- Every error class of the taxonomy is an instance of the base class. -/
lemma isInstanceOf_base (k : ErrorClass) :
    isInstanceOf k ErrorClass.NewsRankError = true := by
  cases k <;> rfl

/-- A failed response makes `syncRequest` raise the `_build_error` value. -/
lemma syncRequest_failure (c : ClientState) (m p : String)
    (ps : Option (List (String × Option Json))) (a : Bool) (r : Response)
    (h : ¬ isSuccess r.status) :
    (syncRequest c m p ps a (fun _ => r)).2 =
      RequestOutcome.error (buildError r) := by
  rw [syncRequest_snd, if_pos h]

/-- Appending to a string at least as long as the target never equals it. -/
lemma append_ne_target (pre suffix tgt : String)
    (h : tgt.length < pre.length) : pre ++ suffix ≠ tgt := by
  intro heq
  have hl := congrArg String.length heq
  rw [String.length_append] at hl
  omega

/-- A three-part concatenation whose outer parts are jointly longer than
the target never equals it. -/
lemma append3_ne_target (pre mid suf tgt : String)
    (h : tgt.length < pre.length + suf.length) : pre ++ mid ++ suf ≠ tgt := by
  intro heq
  have hl := congrArg String.length heq
  rw [String.length_append, String.length_append] at hl
  omega

/-- Clients with a caller-supplied pool never close it, whatever the
operation sequence. -/
lemma runOps_not_owned (c : ClientState) (h : c.owns_client = false) :
    ∀ (ops : List ClientOp) (poolCloses : Nat),
      runOps c poolCloses ops = poolCloses := by
  intro ops
  induction ops with
  | nil => intro poolCloses; rfl
  | cons op rest ih =>
    intro poolCloses
    cases op <;> simp [runOps, syncClose, syncExit, h, ih]

/-- Requests do not affect the pool-close counter. -/
lemma runOps_replicate_request (c : ClientState) :
    ∀ (n : Nat) (poolCloses : Nat) (l : List ClientOp),
      runOps c poolCloses (List.replicate n ClientOp.request ++ l) =
        runOps c poolCloses l := by
  intro n
  induction n with
  | zero => intro poolCloses l; rfl
  | succ k ih => intro poolCloses l; simp [List.replicate, runOps, ih]

/-!
Claim theorems.
-/

/-- Claim C1: for every HTTP response with a status code outside 200-299,
`request` raises a classified error whose kind is determined solely by the
status code, with priority 401 Authentication, 403 Permission, 404
NotFound, 429 RateLimit, 500-599 Server, any other non-success status the
generic base kind; the raised error's `status_code` equals the response's
status code. -/
theorem claim_C1_error_classification (c : ClientState) (m p : String)
    (ps : Option (List (String × Option Json))) (a : Bool) (r : Response)
    (h : ¬ isSuccess r.status) :
    ∃ e, (syncRequest c m p ps a (fun _ => r)).2 = RequestOutcome.error e ∧
      e.status_code = some r.status ∧
      (r.status = 401 → e.cls = ErrorClass.AuthenticationError) ∧
      (r.status = 403 → e.cls = ErrorClass.PermissionError) ∧
      (r.status = 404 → e.cls = ErrorClass.NotFoundError) ∧
      (r.status = 429 → e.cls = ErrorClass.RateLimitError) ∧
      (500 ≤ r.status → r.status < 600 → e.cls = ErrorClass.ServerError) ∧
      (r.status ≠ 401 → r.status ≠ 403 → r.status ≠ 404 → r.status ≠ 429 →
        ¬ (500 ≤ r.status ∧ r.status < 600) →
        e.cls = ErrorClass.NewsRankError) := by
  refine ⟨buildError r, syncRequest_failure c m p ps a r h, ?_, ?_, ?_, ?_, ?_, ?_, ?_⟩
  · rw [buildError_eq]
  · intro h401
    rw [buildError_eq, h401]
    exact classifyStatus_401
  · intro h403
    rw [buildError_eq, h403]
    exact classifyStatus_403
  · intro h404
    rw [buildError_eq, h404]
    exact classifyStatus_404
  · intro h429
    rw [buildError_eq, h429]
    exact classifyStatus_429
  · intro h5 h6
    rw [buildError_eq]
    exact classifyStatus_server r.status h5 h6
  · intro h1 h2 h3 h4 h5
    rw [buildError_eq]
    exact classifyStatus_generic r.status h1 h2 h3 h4 h5

/-- Witness for C1: a concrete 429 response with body containing an
`error` field is classified as RateLimit with status code 429. -/
theorem claim_C1_witness :
    ¬ isSuccess respRateLimited.status ∧
    (∃ e, (syncRequest wClient "GET" "/items" none true
        (fun _ => respRateLimited)).2 = RequestOutcome.error e ∧
      e.status_code = some respRateLimited.status ∧
      (respRateLimited.status = 401 → e.cls = ErrorClass.AuthenticationError) ∧
      (respRateLimited.status = 403 → e.cls = ErrorClass.PermissionError) ∧
      (respRateLimited.status = 404 → e.cls = ErrorClass.NotFoundError) ∧
      (respRateLimited.status = 429 → e.cls = ErrorClass.RateLimitError) ∧
      (500 ≤ respRateLimited.status → respRateLimited.status < 600 →
        e.cls = ErrorClass.ServerError) ∧
      (respRateLimited.status ≠ 401 → respRateLimited.status ≠ 403 →
        respRateLimited.status ≠ 404 → respRateLimited.status ≠ 429 →
        ¬ (500 ≤ respRateLimited.status ∧ respRateLimited.status < 600) →
        e.cls = ErrorClass.NewsRankError)) :=
  ⟨by decide,
    claim_C1_error_classification wClient "GET" "/items" none true
      respRateLimited (by decide)⟩

/-- Claim C2: the query-parameter mapping actually sent contains exactly
the entries of `params` whose value is not null, each with its exact
original value; null-valued entries are removed before encoding. -/
theorem claim_C2_param_cleaning (c : ClientState) (m p : String)
    (ps : List (String × Option Json)) (a : Bool)
    (net : SentRequest → Response) :
    (syncRequest c m p (some ps) a net).1.params = cleanParams ps ∧
    (∀ k v, ((k, some v) ∈ cleanParams ps ↔ (k, some v) ∈ ps)) ∧
    (∀ k, ((k, (none : Option Json)) ∉ cleanParams ps)) := by
  refine ⟨rfl, ?_, ?_⟩
  · intro k v
    simp [cleanParams, List.mem_filter]
  · intro k
    simp [cleanParams, List.mem_filter]

/-- Claim C4: the blocking and the suspending clients are observably
identical: same constructed state, same sent request and outcome for
every input and network behaviour, and same pool-close behaviour. -/
theorem claim_C4_sync_async_equivalence (key : String) (burl : Option String)
    (sup : Bool) (c : ClientState) (m p : String)
    (ps : Option (List (String × Option Json))) (a : Bool)
    (net : SentRequest → Response) (poolCloses : Nat) :
    syncInit key burl sup = asyncInit key burl sup ∧
    syncRequest c m p ps a net = asyncRequest c m p ps a net ∧
    syncClose c poolCloses = asyncClose c poolCloses :=
  ⟨rfl, rfl, rfl⟩

/-- Claim C5: on a successful response, status 204 or an empty body yields
the no-content value with no JSON parse attempted; otherwise the parsed
JSON body is returned unmodified. -/
theorem claim_C5_success_body (c : ClientState) (m p : String)
    (ps : Option (List (String × Option Json))) (a : Bool) (r : Response)
    (h : isSuccess r.status) :
    ((r.status = 204 ∨ r.text = "") →
      (syncRequest c m p ps a (fun _ => r)).2 = RequestOutcome.ok none) ∧
    (r.status ≠ 204 → r.text ≠ "" → ∀ j, r.jsonBody = some j →
      (syncRequest c m p ps a (fun _ => r)).2 = RequestOutcome.ok (some j)) := by
  constructor
  · intro h204
    rw [syncRequest_snd, if_neg (not_not_intro h), if_pos h204]
  · intro hs ht j hj
    rw [syncRequest_snd, if_neg (not_not_intro h),
      if_neg (by intro hc; rcases hc with hc | hc; exact hs hc; exact ht hc), hj]

/-- Witness for C5: a concrete 200 response with the ranked-stories JSON
payload is returned verbatim. -/
theorem claim_C5_witness :
    isSuccess respRanked.status ∧
    (((respRanked.status = 204 ∨ respRanked.text = "") →
      (syncRequest wClient "GET" "/stories/ranked"
        (some [("limit", some (Json.num 5))]) true
        (fun _ => respRanked)).2 = RequestOutcome.ok none) ∧
    (respRanked.status ≠ 204 → respRanked.text ≠ "" →
      ∀ j, respRanked.jsonBody = some j →
      (syncRequest wClient "GET" "/stories/ranked"
        (some [("limit", some (Json.num 5))]) true
        (fun _ => respRanked)).2 = RequestOutcome.ok (some j))) :=
  ⟨by decide,
    claim_C5_success_body wClient "GET" "/stories/ranked"
      (some [("limit", some (Json.num 5))]) true respRanked (by decide)⟩

/-- Claim C3: error construction is total, and the message is the JSON
body's `error` field when the body parses to an object containing one,
else its `message` field, else the fallback string; a non-JSON body keeps
the fallback message and stores the raw text as the error's body. -/
theorem claim_C3_error_message (c : ClientState) (m p : String)
    (ps : Option (List (String × Option Json))) (a : Bool) (r : Response)
    (h : ¬ isSuccess r.status) :
    ∃ e, (syncRequest c m p ps a (fun _ => r)).2 = RequestOutcome.error e ∧
      (∀ fs v, r.jsonBody = some (Json.obj fs) →
        lookupKey fs "error" = some v → e.message = v) ∧
      (∀ fs v, r.jsonBody = some (Json.obj fs) → lookupKey fs "error" = none →
        lookupKey fs "message" = some v → e.message = v) ∧
      (∀ fs, r.jsonBody = some (Json.obj fs) → lookupKey fs "error" = none →
        lookupKey fs "message" = none →
        e.message = Json.str (fallbackMessage r.status)) ∧
      (∀ j, r.jsonBody = some j → (∀ fs, j ≠ Json.obj fs) →
        e.message = Json.str (fallbackMessage r.status)) ∧
      (∀ j, r.jsonBody = some j → e.body = some j) ∧
      (r.jsonBody = none →
        e.message = Json.str (fallbackMessage r.status) ∧
        e.body = some (Json.str r.text)) := by
  refine ⟨buildError r, syncRequest_failure c m p ps a r h, ?_, ?_, ?_, ?_, ?_, ?_⟩
  · intro fs v hj he
    rw [buildError_eq, hj]
    simp [extractMessage, he]
  · intro fs v hj he hm
    rw [buildError_eq, hj]
    simp [extractMessage, he, hm]
  · intro fs hj he hm
    rw [buildError_eq, hj]
    simp [extractMessage, he, hm]
  · intro j hj hne
    rw [buildError_eq, hj]
    cases j with
    | obj fs => exact absurd rfl (hne fs)
    | null => rfl
    | bool b => rfl
    | num n => rfl
    | str s => rfl
    | arr elems => rfl
  · intro j hj
    rw [buildError_eq]
    simp [storedBody, hj]
  · intro hj
    rw [buildError_eq]
    exact ⟨by simp [extractMessage, hj], by simp [storedBody, hj]⟩

/-- Witness for C3: a 404 response with the non-JSON plain-text body
produces the fallback message and stores the raw text as the body. -/
theorem claim_C3_witness :
    ¬ isSuccess respNotFoundText.status ∧
    (∃ e, (syncRequest wClient "GET" "/item" none true
        (fun _ => respNotFoundText)).2 = RequestOutcome.error e ∧
      (∀ fs v, respNotFoundText.jsonBody = some (Json.obj fs) →
        lookupKey fs "error" = some v → e.message = v) ∧
      (∀ fs v, respNotFoundText.jsonBody = some (Json.obj fs) →
        lookupKey fs "error" = none →
        lookupKey fs "message" = some v → e.message = v) ∧
      (∀ fs, respNotFoundText.jsonBody = some (Json.obj fs) →
        lookupKey fs "error" = none → lookupKey fs "message" = none →
        e.message = Json.str (fallbackMessage respNotFoundText.status)) ∧
      (∀ j, respNotFoundText.jsonBody = some j → (∀ fs, j ≠ Json.obj fs) →
        e.message = Json.str (fallbackMessage respNotFoundText.status)) ∧
      (∀ j, respNotFoundText.jsonBody = some j → e.body = some j) ∧
      (respNotFoundText.jsonBody = none →
        e.message = Json.str (fallbackMessage respNotFoundText.status) ∧
        e.body = some (Json.str respNotFoundText.text))) :=
  ⟨by decide,
    claim_C3_error_message wClient "GET" "/item" none true
      respNotFoundText (by decide)⟩

/-- Claim C6: with auth the sent request carries the bearer Authorization
header and without auth no Authorization header at all; among all facade
call sites exactly the meta version method passes auth false, which is the
`/version` endpoint. -/
theorem claim_C6_auth_header :
    (∀ (c : ClientState) (m p : String)
        (ps : Option (List (String × Option Json))) (a : Bool)
        (net : SentRequest → Response),
      (a = true →
        ("Authorization", "Bearer " ++ c.api_key) ∈
          (syncRequest c m p ps a net).1.headers) ∧
      (a = false →
        ∀ v, ("Authorization", v) ∉ (syncRequest c m p ps a net).1.headers)) ∧
    (∀ (id : String), ∀ call ∈ facadeCalls id,
      (call.auth = false ↔ call.path = "/version")) := by
  constructor
  · intro c m p ps a net
    constructor
    · intro ha
      subst ha
      rw [syncRequest_fst]
      simp
    · intro ha v
      subst ha
      rw [syncRequest_fst]
      simp
  · intro id call hmem
    fin_cases hmem
    all_goals try decide
    · exact iff_of_false (fun hf => Bool.noConfusion hf)
        (append_ne_target "/stories/" id "/version" (by decide))
    · exact iff_of_false (fun hf => Bool.noConfusion hf)
        (append3_ne_target "/stories/" id "/developments" "/version" (by decide))
    · exact iff_of_false (fun hf => Bool.noConfusion hf)
        (append3_ne_target "/stories/" id "/updates" "/version" (by decide))
    · exact iff_of_false (fun hf => Bool.noConfusion hf)
        (append_ne_target "/entities/" id "/version" (by decide))
    · exact iff_of_false (fun hf => Bool.noConfusion hf)
        (append3_ne_target "/entities/" id "/articles" "/version" (by decide))

/-- Witness for C6: the meta version call site is in the facade table and
satisfies the auth-iff-version equivalence. -/
theorem claim_C6_witness :
    (⟨"meta.version", "/version", false⟩ : FacadeCall) ∈ facadeCalls "7" ∧
    ((⟨"meta.version", "/version", false⟩ : FacadeCall).auth = false ↔
      (⟨"meta.version", "/version", false⟩ : FacadeCall).path = "/version") :=
  ⟨by decide,
    claim_C6_auth_header.2 "7" ⟨"meta.version", "/version", false⟩ (by decide)⟩

/-- Claim C7: a caller-supplied connection pool is never closed by any
sequence of close or scoped-exit operations; a self-created pool is closed
exactly once by a scoped acquisition (construct, use, exit). -/
theorem claim_C7_pool_ownership (key : String) (burl : Option String) :
    (∀ ops : List ClientOp, runOps (syncInit key burl true) 0 ops = 0) ∧
    (∀ n : Nat,
      runOps (syncInit key burl false) 0
        (List.replicate n ClientOp.request ++ [ClientOp.exitScope]) = 1) := by
  constructor
  · intro ops
    exact runOps_not_owned _ rfl ops 0
  · intro n
    rw [runOps_replicate_request]
    simp [runOps, syncExit, syncClose, syncInit]

/-- Claim C8: the articles get method called with both optional arguments
absent still issues a GET request to /item whose query mapping contains
neither parameter; no at-least-one-of pre-validation happens. -/
theorem claim_C8_no_prevalidation (c : ClientState)
    (net : SentRequest → Response) :
    (articlesGetRequest c none none net).1.method = "GET" ∧
    (articlesGetRequest c none none net).1.url = c.base_url ++ "/item" ∧
    (articlesGetRequest c none none net).1.params = [] :=
  ⟨rfl, rfl, rfl⟩

/-- Counterexample to C9 as stated: supplying the empty string as the
base-URL override does not store the override with trailing slashes
stripped (which would be the empty string); Python truthiness falls back
to the default base URL instead. -/
theorem claim_C9_counterexample :
    (syncInit "nrf_key" (some "") false).base_url = "https://newsrank.ai/api/v1" ∧
    (syncInit "nrf_key" (some "") false).base_url ≠ rstripSlashes "" :=
  ⟨by decide, by decide⟩

/-- Claim C9 as amended: every non-empty override is stored with trailing
slashes stripped; the default base URL is used when no override is given
or the override is the empty string; the request URL is the stored base
URL with the path appended verbatim. -/
theorem claim_C9_base_url (key : String) (o : Option String) (sup : Bool)
    (c : ClientState) (m p : String)
    (ps : Option (List (String × Option Json))) (a : Bool)
    (net : SentRequest → Response) :
    (∀ s, o = some s → s ≠ "" →
      (syncInit key o sup).base_url = rstripSlashes s) ∧
    (o = none ∨ o = some "" →
      (syncInit key o sup).base_url = DEFAULT_BASE_URL) ∧
    (syncRequest c m p ps a net).1.url = c.base_url ++ p := by
  refine ⟨?_, ?_, rfl⟩
  · intro s ho hs
    subst ho
    simp [syncInit, pyOrDefault, hs]
  · intro ho
    rcases ho with ho | ho <;> subst ho
    · show rstripSlashes (pyOrDefault none DEFAULT_BASE_URL) = DEFAULT_BASE_URL
      decide
    · show rstripSlashes (pyOrDefault (some "") DEFAULT_BASE_URL) = DEFAULT_BASE_URL
      decide

/-- Witness for C9: a concrete override with two trailing slashes is
stored stripped, and an empty-string override falls back to the default. -/
theorem claim_C9_witness :
    ("https://example.com/api//" : String) ≠ "" ∧
    (syncInit "k" (some "https://example.com/api//") false).base_url =
      rstripSlashes "https://example.com/api//" ∧
    rstripSlashes "https://example.com/api//" = "https://example.com/api" ∧
    (syncInit "k" (some "") false).base_url = DEFAULT_BASE_URL :=
  ⟨by decide,
    (claim_C9_base_url "k" (some "https://example.com/api//") false wClient
      "GET" "/items" none true wNet).1 _ rfl (by decide),
    by decide,
    (claim_C9_base_url "k" (some "") false wClient
      "GET" "/items" none true wNet).2.1 (Or.inr rfl)⟩

/-- Claim C10: every classified error the transport raises belongs to the
single base class (all five specific kinds are subclasses of it), so a
handler catching the base class catches it, and its status code and body
attributes are populated. -/
theorem claim_C10_error_hierarchy (c : ClientState) (m p : String)
    (ps : Option (List (String × Option Json))) (a : Bool) (r : Response)
    (h : ¬ isSuccess r.status) :
    ∃ e, (syncRequest c m p ps a (fun _ => r)).2 = RequestOutcome.error e ∧
      isInstanceOf e.cls ErrorClass.NewsRankError = true ∧
      (∀ k : ErrorClass, isInstanceOf k ErrorClass.NewsRankError = true) ∧
      e.status_code = some r.status ∧
      e.body.isSome = true := by
  refine ⟨buildError r, syncRequest_failure c m p ps a r h,
    isInstanceOf_base _, isInstanceOf_base, ?_, ?_⟩
  · rw [buildError_eq]
  · rw [buildError_eq]
    rfl

/-- Witness for C10: a concrete 500 response raises an error that the base
class catches, with status code 500 and a populated body. -/
theorem claim_C10_witness :
    ¬ isSuccess respServerFail.status ∧
    (∃ e, (syncRequest wClient "GET" "/usage" none true
        (fun _ => respServerFail)).2 = RequestOutcome.error e ∧
      isInstanceOf e.cls ErrorClass.NewsRankError = true ∧
      (∀ k : ErrorClass, isInstanceOf k ErrorClass.NewsRankError = true) ∧
      e.status_code = some respServerFail.status ∧
      e.body.isSome = true) :=
  ⟨by decide,
    claim_C10_error_hierarchy wClient "GET" "/usage" none true
      respServerFail (by decide)⟩
